import Mathlib

/-!
Shallow embedding of the lightwave recursive light-client proof pipeline.

The definitions below are translated from the repository's Rust sources:

* `HeliosCircuit`    — crates/integrations/sp1-helios/circuit/src/blueprint.rs
* `TendermintCircuit`— crates/integrations/sp1-tendermint/circuit/src/main.rs
* `WrapperCircuit`   — crates/integrations/sp1-tendermint/wrapper-circuit/src/main.rs
* `Service`          — crates/service/src/prover.rs, crates/service/src/main.rs,
                       crates/service/src/preprocessor/mod.rs, service/src/state.rs

External collaborators (Groth16 verification, borsh / serde decoding, Merkle
root computation, RPC fetches, the SP1 prover) are modelled as explicit
environment records of functions; a circuit panic or failed assertion is
modelled as `none` / an error value.  Byte strings are modelled as `List Nat`
and machine integers as `Nat` (all the arithmetic involved — slot division by
8192 and 32, height comparison, counter increment — is non-wrapping on the
relevant domains).
-/

namespace HeliosCircuit

/-- Bytes of a digest / committee hash, `[u8; 32]` in the source. -/
abbrev Bytes := List Nat

/-- Decoded Helios base-proof public values
(`sp1_helios_primitives::types::ProofOutputs`). Heads are `U256` in the
source; they are beacon slots, modelled as `Nat`. -/
structure HeliosOutputs where
  prevHead : Nat
  newHead : Nat
  prevSyncCommitteeHash : Bytes
  syncCommitteeHash : Bytes
  nextSyncCommitteeHash : Bytes
  newHeader : Bytes
  deriving Repr, DecidableEq

/-- Execution payload roots used by the circuit
(`electra_body_roots.payload_roots`). -/
structure ExecutionPayloadRoots where
  state_root : Bytes
  block_number : Bytes
  deriving Repr, DecidableEq

/-- Electra block body field roots; the circuit only projects
`payload_roots` and merkleizes the whole record (modelled via the
environment), so the remaining field roots are kept as an opaque list. -/
structure ElectraBlockBodyRoots where
  payload_roots : ExecutionPayloadRoots
  other_roots : List Bytes
  deriving Repr, DecidableEq

/-- Electra beacon block header (`beacon_electra::types::electra::ElectraBlockHeader`). -/
structure ElectraBlockHeader where
  slot : Nat
  proposer_index : Nat
  parent_root : Bytes
  state_root : Bytes
  body_root : Bytes
  deriving Repr, DecidableEq

/-- Inputs of the Helios recursion circuit
(`helios_recursion_types::RecursionCircuitInputs`). -/
structure RecursionCircuitInputs where
  electra_body_roots : ElectraBlockBodyRoots
  electra_header : ElectraBlockHeader
  helios_proof : Bytes
  helios_public_values : Bytes
  recursive_proof : Option Bytes
  recursive_public_values : Option Bytes
  recursive_vk : String
  previous_head : Nat
  deriving Repr, DecidableEq

/-- Outputs committed by the Helios recursion circuit
(`helios_recursion_types::RecursionCircuitOutputs`). -/
structure RecursionCircuitOutputs where
  active_committee : Bytes
  previous_committee : Bytes
  root : Bytes
  height : Nat
  vk : String
  deriving Repr, DecidableEq

/-- Compile-time constants of the blueprint; the circuit source is a
template and the concrete values are substituted by
`--generate-recursion-circuit`. -/
structure HeliosConsts where
  TRUSTED_SYNC_COMMITTEE_HASH : Bytes
  TRUSTED_HEAD : Nat
  HELIOS_VK : String

/-- Environment of external collaborators invoked by the circuit:
Merkle root computation, ABI / borsh decoding, and the Groth16 verifier
oracle (`verify proof public_values vk`).  The universal Groth16 vk bytes
argument of the source is a fixed constant and is absorbed into the
oracle. -/
structure HeliosEnv where
  merkleize_header : ElectraBlockHeader → Bytes
  merkelize_body : ElectraBlockBodyRoots → Bytes
  abi_decode_helios : Bytes → Option HeliosOutputs
  borsh_decode_outputs : Bytes → Option RecursionCircuitOutputs
  groth16_verify : Bytes → Bytes → String → Bool

/-- Little-endian interpretation of a byte list (`u64::from_le_bytes`). -/
def u64_from_le_bytes (bs : List Nat) : Nat :=
  bs.foldr (fun b acc => acc * 256 + b) 0

/-- Mirrors `unpad_block_number`: read the first 8 bytes of the 32-byte
padded block-number leaf as a little-endian integer. -/
def unpad_block_number (padded : List Nat) : Nat :=
  u64_from_le_bytes (padded.take 8)

/-- Mirrors `get_helios_outputs` of the blueprint: when previous recursive
outputs are supplied, assert head monotonicity and the sync-committee
continuity (active committee across a period transition, previous committee
within a period); then build the committed outputs.  `none` models a panic. -/
def get_helios_outputs (helios_output : HeliosOutputs)
    (recursive_proof_outputs : Option RecursionCircuitOutputs)
    (recursive_proof_inputs : RecursionCircuitInputs)
    (state_root : Bytes) (height : Bytes) : Option RecursionCircuitOutputs :=
  let committed : RecursionCircuitOutputs :=
    { active_committee := helios_output.syncCommitteeHash
      previous_committee := helios_output.prevSyncCommitteeHash
      root := state_root
      height := unpad_block_number height
      vk := recursive_proof_inputs.recursive_vk }
  match recursive_proof_outputs with
  | none => some committed
  | some r =>
    if helios_output.prevHead < helios_output.newHead then
      if helios_output.prevHead / 8192 < helios_output.newHead / 8192 then
        if helios_output.prevSyncCommitteeHash = r.active_committee then
          some committed
        else
          none
      else
        if helios_output.prevSyncCommitteeHash = r.previous_committee then
          some committed
        else
          none
    else
      none

/-- Mirrors `main` of the Helios recursion circuit blueprint.  `none`
models an aborted proof generation (a failed `assert` / `expect` /
`panic!` inside the zkVM). -/
def helios_main (c : HeliosConsts) (env : HeliosEnv)
    (inputs : RecursionCircuitInputs) : Option RecursionCircuitOutputs :=
  let electra_block_header_root := env.merkleize_header inputs.electra_header
  let electra_body_root := env.merkelize_body inputs.electra_body_roots
  let state_root := inputs.electra_body_roots.payload_roots.state_root
  let height := inputs.electra_body_roots.payload_roots.block_number
  match env.abi_decode_helios inputs.helios_public_values with
  | none => none
  | some helios_output =>
    if inputs.electra_header.body_root = electra_body_root then
      if electra_block_header_root = helios_output.newHeader then
        if env.groth16_verify inputs.helios_proof inputs.helios_public_values
            c.HELIOS_VK then
          if inputs.previous_head = c.TRUSTED_HEAD then
            if helios_output.prevSyncCommitteeHash = c.TRUSTED_SYNC_COMMITTEE_HASH then
              get_helios_outputs helios_output none inputs state_root height
            else
              none
          else
            match inputs.recursive_proof, inputs.recursive_public_values with
            | some rp, some rpv =>
              if env.groth16_verify rp rpv inputs.recursive_vk then
                match env.borsh_decode_outputs rpv with
                | none => none
                | some recursive_proof_outputs =>
                  get_helios_outputs helios_output (some recursive_proof_outputs)
                    inputs state_root height
              else
                none
            | _, _ => none
        else
          none
      else
        none
    else
      none

/-- Constants of the generated Helios recursion circuit in the repository
(recursion/circuit/src/main.rs), produced from the blueprint for the
trusted slot 11715392. -/
def heliosGenerated : HeliosConsts :=
  { TRUSTED_SYNC_COMMITTEE_HASH :=
      [42, 127, 126, 117, 72, 179, 28, 141, 55, 33, 177, 213, 151, 94, 45, 208,
       226, 255, 98, 136, 212, 174, 252, 91, 254, 248, 107, 95, 40, 53, 223, 67]
    TRUSTED_HEAD := 11715392
    HELIOS_VK := "0x00e8ef401d89cf6c4698607644e75f1871724d56f7374972a6a5b76d3cdaf81e" }

end HeliosCircuit

namespace TendermintCircuit

/-- Decoded Tendermint base-proof public values
(`sp1_tendermint_primitives::TendermintOutput`, JSON schema). -/
structure TendermintOutput where
  trusted_header_hash : HeliosCircuit.Bytes
  target_header_hash : HeliosCircuit.Bytes
  target_height : Nat
  deriving Repr, DecidableEq

/-- Inputs of the Tendermint recursion circuit
(`tendermint_recursion_types::RecursionCircuitInputs`). -/
structure RecursionCircuitInputs where
  tendermint_proof : HeliosCircuit.Bytes
  tendermint_public_values : HeliosCircuit.Bytes
  recursive_proof : Option HeliosCircuit.Bytes
  recursive_public_values : Option HeliosCircuit.Bytes
  recursive_vk : String
  trusted_height : Nat
  deriving Repr, DecidableEq

/-- Outputs committed by the Tendermint recursion circuit
(`tendermint_recursion_types::RecursionCircuitOutputs`). -/
structure RecursionCircuitOutputs where
  root : HeliosCircuit.Bytes
  height : Nat
  vk : String
  deriving Repr, DecidableEq

/-- Hard-coded bootstrap height of the generated Tendermint recursion
circuit (`TRUSTED_HEIGHT`). -/
def TRUSTED_HEIGHT : Nat := 31134400

/-- Hard-coded bootstrap header hash of the generated Tendermint recursion
circuit (`TRUSTED_ROOT`). -/
def TRUSTED_ROOT : HeliosCircuit.Bytes :=
  [133, 197, 217, 208, 182, 161, 40, 102, 214, 74, 216, 44, 87, 164, 134, 95,
   150, 222, 115, 170, 222, 9, 183, 138, 57, 107, 86, 21, 40, 96, 131, 113]

/-- Hard-coded verifying key of the base Tendermint circuit. -/
def TENDERMINT_VK : String :=
  "0x00be33671b715fb3f8657ae631b2a7032e2ecda1fc598d18ac234f87ba2a8fd5"

/-- Environment of external collaborators of the Tendermint recursion
circuit: serde_json / borsh decoding and the Groth16 verifier oracle. -/
structure TmEnv where
  json_decode_output : HeliosCircuit.Bytes → Option TendermintOutput
  borsh_decode_outputs : HeliosCircuit.Bytes → Option RecursionCircuitOutputs
  groth16_verify : HeliosCircuit.Bytes → HeliosCircuit.Bytes → String → Bool

/-- Mirrors `main` of the Tendermint recursion circuit: decode the base
outputs, verify the base proof under `TENDERMINT_VK`, then either check the
bootstrap anchor or the height monotonicity plus the previous recursive
proof, and finally commit the outputs.  `none` models an aborted proof. -/
def tendermint_main (env : TmEnv) (inputs : RecursionCircuitInputs) :
    Option RecursionCircuitOutputs :=
  match env.json_decode_output inputs.tendermint_public_values with
  | none => none
  | some tendermintx_output =>
    if env.groth16_verify inputs.tendermint_proof inputs.tendermint_public_values
        TENDERMINT_VK then
      let committed : RecursionCircuitOutputs :=
        { root := tendermintx_output.target_header_hash
          height := tendermintx_output.target_height
          vk := inputs.recursive_vk }
      if inputs.trusted_height = TRUSTED_HEIGHT then
        if tendermintx_output.trusted_header_hash = TRUSTED_ROOT then
          some committed
        else
          none
      else
        match inputs.recursive_public_values with
        | none => none
        | some rpv =>
          match env.borsh_decode_outputs rpv with
          | none => none
          | some recursive_proof_outputs =>
            if recursive_proof_outputs.height < tendermintx_output.target_height then
              match inputs.recursive_proof with
              | none => none
              | some rp =>
                if env.groth16_verify rp rpv inputs.recursive_vk then
                  some committed
                else
                  none
            else
              none
    else
      none

end TendermintCircuit

namespace WrapperCircuit

/-- Inputs of the wrapper circuit (`WrapperCircuitInputs`); note the type
has no verifying-key field. -/
structure WrapperCircuitInputs where
  recursive_proof : HeliosCircuit.Bytes
  recursive_public_values : HeliosCircuit.Bytes
  deriving Repr, DecidableEq

/-- Outputs committed by the wrapper circuit (`WrapperCircuitOutputs`). -/
structure WrapperCircuitOutputs where
  height : Nat
  root : HeliosCircuit.Bytes
  deriving Repr, DecidableEq

/-- Canonical recursion verifying key compiled into the generated
Tendermint wrapper circuit (`RECURSIVE_VK`). -/
def RECURSIVE_VK : String :=
  "0x009094b993417fd795f3785e430cc9153705f79c798ac8f337acfabad95d4edc"

/-- Environment of the wrapper circuit: borsh decoding of the recursive
public values and the Groth16 verifier oracle. -/
structure WrapperEnv where
  borsh_decode_outputs :
    HeliosCircuit.Bytes → Option TendermintCircuit.RecursionCircuitOutputs
  groth16_verify : HeliosCircuit.Bytes → HeliosCircuit.Bytes → String → Bool

/-- Mirrors `main` of the generated wrapper circuit
(crates/integrations/sp1-tendermint/wrapper-circuit/src/main.rs): decode
the recursive outputs, assert their `vk` field equals `RECURSIVE_VK`,
verify the recursive proof under `RECURSIVE_VK`, and re-commit
`(height, root)`. -/
def wrapper_main (env : WrapperEnv) (inputs : WrapperCircuitInputs) :
    Option WrapperCircuitOutputs :=
  match env.borsh_decode_outputs inputs.recursive_public_values with
  | none => none
  | some recursive_outputs =>
    if recursive_outputs.vk = RECURSIVE_VK then
      if env.groth16_verify inputs.recursive_proof inputs.recursive_public_values
          RECURSIVE_VK then
        some { height := recursive_outputs.height, root := recursive_outputs.root }
      else
        none
    else
      none

end WrapperCircuit

namespace Service

/-- Mode chosen by the static `MODE` in crates/service/src/prover.rs:
`env::var("CLIENT_BACKEND").unwrap_or_else(|_| "HELIOS".to_string())`. -/
def prover_loop_mode (client_backend : Option String) : String :=
  client_backend.getD "HELIOS"

/-- Mode chosen in crates/service/src/main.rs for ELF selection and state
initialization:
`std::env::var("CLIENT_BACKEND").unwrap_or_else(|_| "TENDERMINT".to_string())`. -/
def startup_mode (client_backend : Option String) : String :=
  client_backend.getD "TENDERMINT"

/-- Which recursion/wrapper ELF pair crates/service/src/main.rs loads for a
given mode string; `none` models the `panic!("Invalid mode")` arm. -/
def elf_selection (mode : String) : Option String :=
  if mode = "TENDERMINT" then some "tendermint"
  else if mode = "HELIOS" then some "helios"
  else none

/-- In-memory service state (`state::ServiceState`); the proof type is kept
abstract (`SP1ProofWithPublicValues` is opaque to the service). -/
structure ServiceState (π : Type) where
  most_recent_recursive_proof : Option π
  most_recent_wrapper_proof : Option π
  trusted_slot : Nat
  trusted_height : Nat
  trusted_root : HeliosCircuit.Bytes
  update_counter : Nat
  deriving Repr, DecidableEq

/-! ### Trust-anchor store (state.rs `StateManager`) -/

/-- The single persisted row of the `service_state` table (id = 1). -/
structure DbRow where
  most_recent_recursive_proof : Option HeliosCircuit.Bytes
  most_recent_wrapper_proof : Option HeliosCircuit.Bytes
  trusted_slot : Nat
  trusted_height : Nat
  trusted_root : HeliosCircuit.Bytes
  update_counter : Nat
  deriving Repr, DecidableEq

/-- Proof blob codec used by the store: `serde_json::to_vec` /
`serde_json::from_slice` on the opaque proof type. -/
structure ProofCodec (π : Type) where
  to_vec : π → HeliosCircuit.Bytes
  from_slice : HeliosCircuit.Bytes → Option π

/-- Load-side failure: a malformed proof blob
(`rusqlite::Error::InvalidParameterName` wrapping the serde error). -/
inductive LoadErr
  | decode
  deriving Repr, DecidableEq

/-- Mirrors `StateManager::save_state`: serialize the optional proofs and
replace the single row (`INSERT OR REPLACE ... VALUES (1, ...)`). -/
def save_state (c : ProofCodec π) (state : ServiceState π) (_db : Option DbRow) :
    Option DbRow :=
  some
    { most_recent_recursive_proof := state.most_recent_recursive_proof.map c.to_vec
      most_recent_wrapper_proof := state.most_recent_wrapper_proof.map c.to_vec
      trusted_slot := state.trusted_slot
      trusted_height := state.trusted_height
      trusted_root := state.trusted_root
      update_counter := state.update_counter }

/-- Mirrors `bytes.map(serde_json::from_slice).transpose().map_err(...)`
inside `StateManager::load_state`. -/
def decode_opt_blob (c : ProofCodec π) :
    Option HeliosCircuit.Bytes → Except LoadErr (Option π)
  | none => .ok none
  | some bytes =>
    match c.from_slice bytes with
    | none => .error .decode
    | some p => .ok (some p)

/-- Mirrors `StateManager::load_state`: read the single row if present and
decode the optional proof blobs, surfacing a malformed blob as an error. -/
def load_state (c : ProofCodec π) (db : Option DbRow) :
    Except LoadErr (Option (ServiceState π)) :=
  match db with
  | none => .ok none
  | some row =>
    match decode_opt_blob c row.most_recent_recursive_proof with
    | .error e => .error e
    | .ok rp =>
      match decode_opt_blob c row.most_recent_wrapper_proof with
      | .error e => .error e
      | .ok wp =>
        .ok (some
          { most_recent_recursive_proof := rp
            most_recent_wrapper_proof := wp
            trusted_slot := row.trusted_slot
            trusted_height := row.trusted_height
            trusted_root := row.trusted_root
            update_counter := row.update_counter })

/-! ### Helios preprocessor (crates/service/src/preprocessor/mod.rs) -/

/-- Errors surfaced by `Preprocessor::run`; `waitingForFinality` is the
`"Waiting for new slot to be finalized, retry in 60 seconds!"` error. -/
inductive PreErr
  | checkpoint
  | client
  | latestSlot
  | waitingForFinality
  | updates
  | finality
  deriving Repr, DecidableEq

/-- Environment of `Preprocessor::run`: the consensus RPC fetches and the
Helios client, each of which may fail (`none`).  `updates_result` takes
the computed `period_distance`; `serialize` stands for the cbor encoding
of the assembled `ProofInputs`. -/
structure PreEnv where
  checkpoint_result : Option HeliosCircuit.Bytes
  client_result : Option Unit
  latest_slot_result : Option Nat
  updates_result : Nat → Option (List HeliosCircuit.Bytes)
  finality_update_result : Option HeliosCircuit.Bytes
  serialize : List HeliosCircuit.Bytes → HeliosCircuit.Bytes → HeliosCircuit.Bytes

/-- Mirrors `Preprocessor::run`: fetch checkpoint and client, fetch the
latest finalized slot, fail fast with the waiting-for-finality error when
`latest_slot <= trusted_slot || latest_slot / 32 < trusted_slot / 32`,
otherwise fetch `period_distance` updates plus the finality update and
serialize the program inputs. -/
def preprocessor_run (env : PreEnv) (trusted_slot : Nat) :
    Except PreErr HeliosCircuit.Bytes :=
  match env.checkpoint_result with
  | none => .error .checkpoint
  | some _checkpoint =>
    match env.client_result with
    | none => .error .client
    | some _client =>
      let trusted_slot_period := trusted_slot / 8192
      match env.latest_slot_result with
      | none => .error .latestSlot
      | some latest_slot =>
        if latest_slot ≤ trusted_slot ∨ latest_slot / 32 < trusted_slot / 32 then
          .error .waitingForFinality
        else
          let latest_finalized_slot := latest_slot - latest_slot % 32
          let latest_finalized_slot_period := latest_finalized_slot / 8192
          let pd := latest_finalized_slot_period - trusted_slot_period
          let period_distance := if pd = 0 then 1 else pd
          match env.updates_result period_distance with
          | none => .error .updates
          | some updates =>
            match env.finality_update_result with
            | none => .error .finality
            | some finality_update =>
              .ok (env.serialize updates finality_update)

/-- Failure of `helios_prover` as seen by the prover loop: either the
preprocessor failed or base proof generation / its worker failed. -/
inductive HeliosProverErr
  | pre (e : PreErr)
  | proofFailed
  deriving Repr, DecidableEq

/-- Mirrors the front of `helios_prover` (crates/service/src/prover.rs),
instrumented with a flag recording whether the base prover was invoked:
the preprocessor runs first and any error returns before the SP1 prover
is started. -/
def helios_prover_model (penv : PreEnv) (prove_result : Option π)
    (trusted_slot : Nat) : Except HeliosProverErr π × Bool :=
  match preprocessor_run penv trusted_slot with
  | .error e => (.error (.pre e), false)
  | .ok _inputs =>
    match prove_result with
    | none => (.error .proofFailed, true)
    | some p => (.ok p, true)

/-! ### One round of the prover loop (crates/service/src/prover.rs) -/

/-- Result of awaiting an isolated proving task:
`Ok(Ok(proof))`, `Ok(Err(e))`, or a `JoinError` (worker panic). -/
inductive ProofStep (π : Type)
  | ok (p : π)
  | failed
  | panicked
  deriving Repr, DecidableEq

/-- Outcome of the base-proof stage after branching on `MODE`. -/
inductive BaseOutcome
  | helios (ho : HeliosCircuit.HeliosOutputs)
  | tendermint (t : TendermintCircuit.TendermintOutput)
  | failed
  | invalidMode
  deriving Repr, DecidableEq

/-- Environment of one iteration of `run_prover_loop`: the mode string,
the outcome of each fallible stage, the projection from a proof to its
public values bytes, the borsh decoders for the recursion outputs, and
whether `save_state` succeeds.  A single flag covers the
`cleanup_gpu_containers()?` calls (each propagates an error fatally). -/
structure RoundEnv (π : Type) where
  mode : String
  cleanup_ok : Bool
  helios_result : Option HeliosCircuit.HeliosOutputs
  tendermint_result : Option TendermintCircuit.TendermintOutput
  recursive_result : ProofStep π
  wrapper_result : ProofStep π
  pv : π → HeliosCircuit.Bytes
  decode_helios_rec_outputs :
    HeliosCircuit.Bytes → Option HeliosCircuit.RecursionCircuitOutputs
  decode_tm_rec_outputs :
    HeliosCircuit.Bytes → Option TendermintCircuit.RecursionCircuitOutputs
  save_ok : Bool

/-- What one loop iteration does: `retry s` models "log, sleep `s` seconds,
`continue`" (the anchor is untouched); `advance` carries the mutated and
persisted state; `fatal` models a `panic!` / `expect` failure or a
propagated `?` error that terminates `run_prover_loop`. -/
inductive RoundOutcome (π : Type)
  | retry (sleep_secs : Nat)
  | advance (s : ServiceState π)
  | fatal
  deriving Repr, DecidableEq

/-- Mirrors the base-proof stage of `run_prover_loop`: the `match
MODE.as_str()` with the `Ok` / `Err` handling of each prover, and the
`panic!` on an invalid mode. -/
def base_outcome (env : RoundEnv π) : BaseOutcome :=
  if env.mode = "HELIOS" then
    match env.helios_result with
    | some ho => .helios ho
    | none => .failed
  else if env.mode = "TENDERMINT" then
    match env.tendermint_result with
    | some t => .tendermint t
    | none => .failed
  else
    .invalidMode

/-- Default retry backoff in seconds (`DEFAULT_TIMEOUT`). -/
def DEFAULT_TIMEOUT : Nat := 60

/-- Mirrors one iteration of `run_prover_loop`, returning its outcome
together with the list of states passed to a successful
`state_manager.save_state`.  Control flow follows the source: base proof
(retry on failure), recursive proof (retry on `Ok(Err)` or a join error),
wrapper proof (likewise), then decode the recursion outputs from the
recursive proof's public values (a decode failure is an `expect` panic),
mutate the anchor fields, increment the counter, and persist. -/
def run_round (env : RoundEnv π) (s : ServiceState π) :
    RoundOutcome π × List (ServiceState π) :=
  if env.cleanup_ok then
    match base_outcome env with
    | .invalidMode => (.fatal, [])
    | .failed => (.retry DEFAULT_TIMEOUT, [])
    | .helios ho =>
      match env.recursive_result with
      | .failed => (.retry DEFAULT_TIMEOUT, [])
      | .panicked => (.retry DEFAULT_TIMEOUT, [])
      | .ok recursive_proof =>
        match env.wrapper_result with
        | .failed => (.retry DEFAULT_TIMEOUT, [])
        | .panicked => (.retry DEFAULT_TIMEOUT, [])
        | .ok final_wrapped_proof =>
          match env.decode_helios_rec_outputs (env.pv recursive_proof) with
          | none => (.fatal, [])
          | some wrapped_outputs =>
            let s2 : ServiceState π :=
              { most_recent_recursive_proof := some recursive_proof
                most_recent_wrapper_proof := some final_wrapped_proof
                trusted_slot := ho.newHead
                trusted_height := wrapped_outputs.height
                trusted_root := wrapped_outputs.root
                update_counter := s.update_counter + 1 }
            if env.save_ok then (.advance s2, [s2]) else (.fatal, [])
    | .tendermint t =>
      match env.recursive_result with
      | .failed => (.retry DEFAULT_TIMEOUT, [])
      | .panicked => (.retry DEFAULT_TIMEOUT, [])
      | .ok recursive_proof =>
        match env.wrapper_result with
        | .failed => (.retry DEFAULT_TIMEOUT, [])
        | .panicked => (.retry DEFAULT_TIMEOUT, [])
        | .ok final_wrapped_proof =>
          match env.decode_tm_rec_outputs (env.pv recursive_proof) with
          | none => (.fatal, [])
          | some wrapped_outputs =>
            let s2 : ServiceState π :=
              { most_recent_recursive_proof := some recursive_proof
                most_recent_wrapper_proof := some final_wrapped_proof
                trusted_slot := t.target_height
                trusted_height := wrapped_outputs.height
                trusted_root := wrapped_outputs.root
                update_counter := s.update_counter + 1 }
            if env.save_ok then (.advance s2, [s2]) else (.fatal, [])
  else
    (.fatal, [])

/-- The loop's state for the next round: unchanged unless the round
advanced the anchor. -/
def round_next_state (env : RoundEnv π) (s : ServiceState π) : ServiceState π :=
  match (run_round env s).1 with
  | .retry _ => s
  | .advance s2 => s2
  | .fatal => s

/-- Predicate: the base-proof stage of the round failed transiently. -/
def base_failed (env : RoundEnv π) : Prop :=
  (env.mode = "HELIOS" ∧ env.helios_result = none) ∨
    (env.mode = "TENDERMINT" ∧ env.tendermint_result = none)

/-- Predicate: an isolated proving task failed or its worker panicked. -/
def step_failed (r : ProofStep π) : Prop :=
  r = .failed ∨ r = .panicked

end Service

open HeliosCircuit WrapperCircuit Service

/-- Concrete Helios base outputs crossing a period boundary, used to exercise
the continuity check. -/
def c1Ho : HeliosOutputs :=
  { prevHead := 8191, newHead := 8192, prevSyncCommitteeHash := [1],
    syncCommitteeHash := [2], nextSyncCommitteeHash := [3], newHeader := [7] }

/-- Concrete previous recursive outputs whose active committee matches `c1Ho`. -/
def c1Ro : RecursionCircuitOutputs :=
  { active_committee := [1], previous_committee := [9], root := [4],
    height := 5, vk := "rvk" }

/-- Concrete blueprint constants for a non-bootstrap evaluation. -/
def c1Consts : HeliosConsts :=
  { TRUSTED_SYNC_COMMITTEE_HASH := [0], TRUSTED_HEAD := 0, HELIOS_VK := "hvk" }

/-- Concrete circuit environment whose oracles accept and decode to `c1Ho` /
`c1Ro`. -/
def c1Env : HeliosEnv :=
  { merkleize_header := fun _ => [7], merkelize_body := fun _ => [8],
    abi_decode_helios := fun _ => some c1Ho,
    borsh_decode_outputs := fun _ => some c1Ro,
    groth16_verify := fun _ _ _ => true }

/-- Concrete non-bootstrap circuit inputs consistent with `c1Env`. -/
def c1Inputs : RecursionCircuitInputs :=
  { electra_body_roots :=
      { payload_roots := { state_root := [4], block_number := [0, 0, 0, 0, 0, 0, 0, 0] }
        other_roots := [] }
    electra_header :=
      { slot := 0, proposer_index := 0, parent_root := [], state_root := [], body_root := [8] }
    helios_proof := [0], helios_public_values := [0]
    recursive_proof := some [0], recursive_public_values := some [0]
    recursive_vk := "rvk", previous_head := 1 }

/-- Concrete recursive outputs carrying a non-canonical `vk`. -/
def c2Ro : TendermintCircuit.RecursionCircuitOutputs :=
  { root := [5], height := 9, vk := "not-the-canonical-vk" }

/-- Concrete wrapper environment decoding to `c2Ro` with an accepting verifier. -/
def c2Env : WrapperEnv :=
  { borsh_decode_outputs := fun _ => some c2Ro
    groth16_verify := fun _ _ _ => true }

/-- Concrete wrapper inputs. -/
def c2Inputs : WrapperCircuitInputs :=
  { recursive_proof := [0], recursive_public_values := [1] }

/-- Concrete blueprint constants for a bootstrap evaluation. -/
def c3Consts : HeliosConsts :=
  { TRUSTED_SYNC_COMMITTEE_HASH := [6], TRUSTED_HEAD := 5, HELIOS_VK := "hvk" }

/-- Concrete Helios base outputs whose previous committee equals the trusted
hash of `c3Consts`. -/
def c3Ho : HeliosOutputs :=
  { prevHead := 100, newHead := 200, prevSyncCommitteeHash := [6],
    syncCommitteeHash := [2], nextSyncCommitteeHash := [3], newHeader := [7] }

/-- Concrete circuit environment decoding to `c3Ho` with accepting oracles. -/
def c3Env : HeliosEnv :=
  { merkleize_header := fun _ => [7], merkelize_body := fun _ => [8],
    abi_decode_helios := fun _ => some c3Ho,
    borsh_decode_outputs := fun _ => none,
    groth16_verify := fun _ _ _ => true }

/-- Concrete bootstrap circuit inputs (`previous_head` equals the trusted head
of `c3Consts`). -/
def c3Inputs : RecursionCircuitInputs :=
  { electra_body_roots :=
      { payload_roots := { state_root := [4], block_number := [1, 0, 0, 0, 0, 0, 0, 0] }
        other_roots := [] }
    electra_header :=
      { slot := 0, proposer_index := 0, parent_root := [], state_root := [], body_root := [8] }
    helios_proof := [0], helios_public_values := [0]
    recursive_proof := none, recursive_public_values := none
    recursive_vk := "rvk", previous_head := 5 }

/-- Concrete Tendermint base outputs anchored at the hard-coded trusted root. -/
def c3TmOut : TendermintCircuit.TendermintOutput :=
  { trusted_header_hash := TendermintCircuit.TRUSTED_ROOT,
    target_header_hash := [1], target_height := 31134500 }

/-- Concrete Tendermint circuit environment decoding to `c3TmOut` with an
accepting verifier. -/
def c3TmEnv : TendermintCircuit.TmEnv :=
  { json_decode_output := fun _ => some c3TmOut
    borsh_decode_outputs := fun _ => none
    groth16_verify := fun _ _ _ => true }

/-- Concrete Tendermint bootstrap inputs (`trusted_height` equals
`TRUSTED_HEIGHT`). -/
def c3TmInputs : TendermintCircuit.RecursionCircuitInputs :=
  { tendermint_proof := [0], tendermint_public_values := [0]
    recursive_proof := none, recursive_public_values := none
    recursive_vk := "rvk", trusted_height := 31134400 }

/-- Concrete Helios base outputs with `newHead` below `prevHead`, anchored at
the generated trusted committee hash. -/
def c4Ho : HeliosOutputs :=
  { prevHead := 11716000, newHead := 11715999,
    prevSyncCommitteeHash := heliosGenerated.TRUSTED_SYNC_COMMITTEE_HASH,
    syncCommitteeHash := [2], nextSyncCommitteeHash := [3], newHeader := [7] }

/-- Concrete circuit environment decoding to `c4Ho` with accepting oracles. -/
def c4Env : HeliosEnv :=
  { merkleize_header := fun _ => [7], merkelize_body := fun _ => [8],
    abi_decode_helios := fun _ => some c4Ho,
    borsh_decode_outputs := fun _ => none,
    groth16_verify := fun _ _ _ => true }

/-- Concrete bootstrap inputs for the generated circuit constants. -/
def c4Inputs : RecursionCircuitInputs :=
  { electra_body_roots :=
      { payload_roots := { state_root := [4], block_number := [1, 0, 0, 0, 0, 0, 0, 0] }
        other_roots := [] }
    electra_header :=
      { slot := 0, proposer_index := 0, parent_root := [], state_root := [], body_root := [8] }
    helios_proof := [0], helios_public_values := [0]
    recursive_proof := none, recursive_public_values := none
    recursive_vk := "rvk", previous_head := 11715392 }

/-- The inputs of `c4Inputs` moved off the bootstrap branch. -/
def c4InputsNb : RecursionCircuitInputs :=
  { c4Inputs with previous_head := 1 }

/-- Concrete Helios base outputs valid for the generated bootstrap branch. -/
def c5Ho : HeliosOutputs :=
  { prevHead := 11715392, newHead := 11716416,
    prevSyncCommitteeHash := heliosGenerated.TRUSTED_SYNC_COMMITTEE_HASH,
    syncCommitteeHash := [2], nextSyncCommitteeHash := [3], newHeader := [7] }

/-- Concrete circuit environment decoding to `c5Ho` with accepting oracles. -/
def c5Env : HeliosEnv :=
  { merkleize_header := fun _ => [7], merkelize_body := fun _ => [8],
    abi_decode_helios := fun _ => some c5Ho,
    borsh_decode_outputs := fun _ => none,
    groth16_verify := fun _ _ _ => true }

/-- Concrete bootstrap inputs with no recursive proof supplied. -/
def c5InputsBase : RecursionCircuitInputs :=
  { electra_body_roots :=
      { payload_roots := { state_root := [4], block_number := [1, 0, 0, 0, 0, 0, 0, 0] }
        other_roots := [] }
    electra_header :=
      { slot := 0, proposer_index := 0, parent_root := [], state_root := [], body_root := [8] }
    helios_proof := [0], helios_public_values := [0]
    recursive_proof := none, recursive_public_values := none
    recursive_vk := "rvk", previous_head := 11715392 }

/-- The inputs of `c5InputsBase` with a recursive proof supplied. -/
def c5Inputs : RecursionCircuitInputs :=
  { c5InputsBase with recursive_proof := some [0] }

/-- Concrete round environment whose Helios base stage fails. -/
def c6Env : RoundEnv Nat :=
  { mode := "HELIOS", cleanup_ok := true
    helios_result := none, tendermint_result := none
    recursive_result := .failed, wrapper_result := .failed
    pv := fun _ => []
    decode_helios_rec_outputs := fun _ => none
    decode_tm_rec_outputs := fun _ => none
    save_ok := true }

/-- Concrete in-memory anchor state. -/
def c6State : ServiceState Nat :=
  { most_recent_recursive_proof := none, most_recent_wrapper_proof := none
    trusted_slot := 1, trusted_height := 2, trusted_root := [3], update_counter := 4 }

/-- Concrete preprocessor environment whose RPC fetches succeed with a stale
latest slot. -/
def c8Env : PreEnv :=
  { checkpoint_result := some []
    client_result := some ()
    latest_slot_result := some 10
    updates_result := fun _ => some []
    finality_update_result := some []
    serialize := fun _ _ => [] }

/-- Concrete injective proof codec over `Nat`. -/
def c9Codec : ProofCodec Nat :=
  { to_vec := fun n => [n]
    from_slice := fun l =>
      match l with
      | [n] => some n
      | _ => none }

/-- Concrete service state with one proof present and one absent. -/
def c9State : ServiceState Nat :=
  { most_recent_recursive_proof := some 7, most_recent_wrapper_proof := none
    trusted_slot := 1, trusted_height := 2, trusted_root := [3], update_counter := 4 }

/-- Claim C1: in the Helios recursion circuit, for every input with
`previous_head` different from `TRUSTED_HEAD`, the proof succeeds only if
the base outputs' `prevSyncCommitteeHash` equals the previous recursive
proof's `active_committee` when `prevHead` and `newHead` lie in different
sync-committee periods (`prevHead / 8192 < newHead / 8192`), and only if it
equals the previous proof's `previous_committee` when they lie in the same
period. -/
theorem helios_period_committee_continuity
    (c : HeliosConsts) (env : HeliosEnv)
    (inputs : RecursionCircuitInputs) (out : RecursionCircuitOutputs)
    (hsucc : helios_main c env inputs = some out)
    (hboot : inputs.previous_head ≠ c.TRUSTED_HEAD) :
    ∃ ho rpv ro,
      env.abi_decode_helios inputs.helios_public_values = some ho ∧
      inputs.recursive_public_values = some rpv ∧
      env.borsh_decode_outputs rpv = some ro ∧
      (ho.prevHead / 8192 < ho.newHead / 8192 →
        ho.prevSyncCommitteeHash = ro.active_committee) ∧
      (ho.prevHead / 8192 = ho.newHead / 8192 →
        ho.prevSyncCommitteeHash = ro.previous_committee) := by
  unfold helios_main at hsucc
  split at hsucc
  · simp at hsucc
  rename_i ho hdec
  dsimp only at hsucc
  split at hsucc
  case isFalse => simp at hsucc
  split at hsucc
  case isFalse => simp at hsucc
  split at hsucc
  case isFalse => simp at hsucc
  split at hsucc
  case h_2 => simp at hsucc
  rename_i rp rpv hrp hrpv
  split at hsucc
  case isFalse => simp at hsucc
  split at hsucc
  case h_1 => simp at hsucc
  rename_i ro hro
  unfold get_helios_outputs at hsucc
  dsimp only at hsucc
  split at hsucc
  case isFalse => simp at hsucc
  rename_i hmono
  split at hsucc
  case isTrue =>
    rename_i hper
    split at hsucc
    case isFalse => simp at hsucc
    rename_i hcom
    exact ⟨ho, rpv, ro, hdec, hrpv, hro, fun _ => hcom, fun h => by omega⟩
  case isFalse =>
    rename_i hnper
    split at hsucc
    case isFalse => simp at hsucc
    rename_i hcom
    exact ⟨ho, rpv, ro, hdec, hrpv, hro, fun h => absurd h hnper, fun _ => hcom⟩

/-- Witness for claim C1: a concrete non-bootstrap input on which the hypotheses
of the theorem hold. -/
theorem helios_period_committee_continuity_witness :
    ∃ ho rpv ro,
      c1Env.abi_decode_helios c1Inputs.helios_public_values = some ho ∧
      c1Inputs.recursive_public_values = some rpv ∧
      c1Env.borsh_decode_outputs rpv = some ro ∧
      (ho.prevHead / 8192 < ho.newHead / 8192 →
        ho.prevSyncCommitteeHash = ro.active_committee) ∧
      (ho.prevHead / 8192 = ho.newHead / 8192 →
        ho.prevSyncCommitteeHash = ro.previous_committee) :=
  helios_period_committee_continuity c1Consts c1Env c1Inputs
    { active_committee := [2], previous_committee := [1], root := [4],
      height := 0, vk := "rvk" }
    (by rfl) (by decide)

/-- Claim C2: the wrapper circuit rejects every input whose decoded recursive
outputs carry a `vk` different from the compiled-in `RECURSIVE_VK`, and
whenever it accepts, the recursive proof was verified under `RECURSIVE_VK`
(the input type carries no key of its own) and the committed outputs restate
the decoded height and root. -/
theorem wrapper_vk_enforcement (env : WrapperEnv) (inputs : WrapperCircuitInputs) :
    (∀ ro, env.borsh_decode_outputs inputs.recursive_public_values = some ro →
      ro.vk ≠ RECURSIVE_VK → wrapper_main env inputs = none) ∧
    (∀ w, wrapper_main env inputs = some w →
      env.groth16_verify inputs.recursive_proof inputs.recursive_public_values
        RECURSIVE_VK = true ∧
      ∃ ro, env.borsh_decode_outputs inputs.recursive_public_values = some ro ∧
        ro.vk = RECURSIVE_VK ∧ w.height = ro.height ∧ w.root = ro.root) := by
  constructor
  · intro ro hro hne
    unfold wrapper_main
    rw [hro]
    simp [hne]
  · intro w hw
    unfold wrapper_main at hw
    split at hw
    · simp at hw
    rename_i ro hro
    split at hw
    case isFalse => simp at hw
    rename_i hvk
    split at hw
    case isFalse => simp at hw
    rename_i hver
    injection hw with hw
    subst hw
    exact ⟨hver, ro, hro, hvk, rfl, rfl⟩

/-- Witness for claim C2: a concrete input with a non-canonical decoded `vk` is
rejected. -/
theorem wrapper_vk_enforcement_witness :
    wrapper_main c2Env c2Inputs = none :=
  (wrapper_vk_enforcement c2Env c2Inputs).1 c2Ro (by rfl) (by decide)

/-- Claim C3: for both chain variants, the bootstrap proof succeeds only when
the base output's prior anchor (`prevSyncCommitteeHash` for Helios,
`trusted_header_hash` for Tendermint) equals the hard-coded constant
(`TRUSTED_SYNC_COMMITTEE_HASH` / `TRUSTED_ROOT`). -/
theorem bootstrap_prior_anchor_equals_constant :
    (∀ (c : HeliosConsts) (env : HeliosEnv) (inputs : RecursionCircuitInputs) out,
      helios_main c env inputs = some out →
      inputs.previous_head = c.TRUSTED_HEAD →
      ∃ ho, env.abi_decode_helios inputs.helios_public_values = some ho ∧
        ho.prevSyncCommitteeHash = c.TRUSTED_SYNC_COMMITTEE_HASH) ∧
    (∀ (env : TendermintCircuit.TmEnv)
        (inputs : TendermintCircuit.RecursionCircuitInputs) out,
      TendermintCircuit.tendermint_main env inputs = some out →
      inputs.trusted_height = TendermintCircuit.TRUSTED_HEIGHT →
      ∃ t, env.json_decode_output inputs.tendermint_public_values = some t ∧
        t.trusted_header_hash = TendermintCircuit.TRUSTED_ROOT) := by
  constructor
  · intro c env inputs out hsucc hboot
    unfold helios_main at hsucc
    split at hsucc
    · simp at hsucc
    rename_i ho hdec
    dsimp only at hsucc
    split at hsucc
    case isFalse => simp at hsucc
    split at hsucc
    case isFalse => simp at hsucc
    split at hsucc
    case isFalse => simp at hsucc
    split at hsucc
    case isFalse => simp at hsucc
    rename_i hcom
    exact ⟨ho, hdec, hcom⟩
  · intro env inputs out hsucc hboot
    unfold TendermintCircuit.tendermint_main at hsucc
    split at hsucc
    · simp at hsucc
    rename_i t hdec
    dsimp only at hsucc
    split at hsucc
    case isFalse => simp at hsucc
    split at hsucc
    case isFalse => simp at hsucc
    rename_i hroot
    exact ⟨t, hdec, hroot⟩

/-- Witness for claim C3: concrete bootstrap inputs for both variants on which
the theorem applies. -/
theorem bootstrap_prior_anchor_equals_constant_witness :
    (∃ ho, c3Env.abi_decode_helios c3Inputs.helios_public_values = some ho ∧
      ho.prevSyncCommitteeHash = c3Consts.TRUSTED_SYNC_COMMITTEE_HASH) ∧
    (∃ t, c3TmEnv.json_decode_output c3TmInputs.tendermint_public_values = some t ∧
      t.trusted_header_hash = TendermintCircuit.TRUSTED_ROOT) :=
  ⟨bootstrap_prior_anchor_equals_constant.1 c3Consts c3Env c3Inputs
      { active_committee := [2], previous_committee := [6], root := [4],
        height := 1, vk := "rvk" }
      (by rfl) rfl,
    bootstrap_prior_anchor_equals_constant.2 c3TmEnv c3TmInputs
      { root := [1], height := 31134500, vk := "rvk" }
      (by rfl) rfl⟩

/-- Counterexample to claim C4 as stated: a concrete bootstrap input whose base
outputs have `newHead` not above `prevHead` is nevertheless accepted by the
generated Helios recursion circuit, because the monotonicity assert only
runs in the non-bootstrap branch. -/
theorem helios_nonmonotone_head_counterexample :
    c4Env.abi_decode_helios c4Inputs.helios_public_values = some c4Ho ∧
    c4Ho.newHead ≤ c4Ho.prevHead ∧
    (helios_main heliosGenerated c4Env c4Inputs).isSome = true :=
  ⟨rfl, by decide, rfl⟩

/-- Claim C4 (amended): for every Helios recursion circuit input outside the
bootstrap branch (`previous_head` different from `TRUSTED_HEAD`) whose base
outputs satisfy `newHead <= prevHead`, the circuit rejects. -/
theorem helios_nonbootstrap_rejects_nonmonotone
    (c : HeliosConsts) (env : HeliosEnv)
    (inputs : RecursionCircuitInputs) (ho : HeliosOutputs)
    (hdec : env.abi_decode_helios inputs.helios_public_values = some ho)
    (hboot : inputs.previous_head ≠ c.TRUSTED_HEAD)
    (hmono : ho.newHead ≤ ho.prevHead) :
    helios_main c env inputs = none := by
  unfold helios_main
  dsimp only
  rw [hdec]
  dsimp only
  split
  case isFalse => rfl
  split
  case isFalse => rfl
  split
  case isFalse => rfl
  split
  case h_2 => rfl
  rename_i rp rpv hrp hrpv
  split
  case isFalse => rfl
  split
  case h_1 => rfl
  rename_i ro hro
  unfold get_helios_outputs
  dsimp only
  split
  case isTrue hlt => exact absurd hlt (by omega)
  case isFalse => rfl

/-- Witness for the amended claim C4: a concrete non-bootstrap, non-monotone
input is rejected. -/
theorem helios_nonbootstrap_rejects_nonmonotone_witness :
    helios_main heliosGenerated c4Env c4InputsNb = none :=
  helios_nonbootstrap_rejects_nonmonotone heliosGenerated c4Env c4InputsNb c4Ho
    rfl (by decide) (by decide)

/-- Counterexample to claim C5 as stated: a concrete input with `previous_head`
equal to `TRUSTED_HEAD` and a recursive proof present is accepted — the
bootstrap branch never inspects `recursive_proof`. -/
theorem helios_bootstrap_present_proof_counterexample :
    c5Inputs.previous_head = heliosGenerated.TRUSTED_HEAD ∧
    c5Inputs.recursive_proof.isSome = true ∧
    (helios_main heliosGenerated c5Env c5Inputs).isSome = true :=
  ⟨rfl, rfl, rfl⟩

/-- Claim C5 (amended): in the bootstrap branch the `recursive_proof` input is
ignored — the circuit's result is unchanged by supplying or removing it, so
in particular it does not reject when one is present. -/
theorem helios_bootstrap_ignores_recursive_proof
    (c : HeliosConsts) (env : HeliosEnv)
    (inputs : RecursionCircuitInputs) (rp : Option Bytes)
    (hboot : inputs.previous_head = c.TRUSTED_HEAD) :
    helios_main c env { inputs with recursive_proof := rp } =
      helios_main c env inputs := by
  unfold helios_main get_helios_outputs
  dsimp only
  rw [hboot]
  cases env.abi_decode_helios inputs.helios_public_values <;> simp

/-- Witness for the amended claim C5: supplying a recursive proof to a concrete
bootstrap input leaves the result unchanged. -/
theorem helios_bootstrap_ignores_recursive_proof_witness :
    helios_main heliosGenerated c5Env c5Inputs =
      helios_main heliosGenerated c5Env c5InputsBase :=
  helios_bootstrap_ignores_recursive_proof heliosGenerated c5Env c5InputsBase
    (some [0]) rfl

/-- Claim C6: in a prover-loop round, any transient failure (base-proof adapter
failure, recursive- or wrapper-proof failure or worker panic) makes the loop
sleep 60 seconds and restart the round with the in-memory anchor and the
persisted row unchanged; the round advances — mutating the anchor fields,
incrementing the counter and saving exactly the new state — only when all
three proofs succeeded. -/
theorem prover_round_retry_semantics {π : Type} (env : RoundEnv π)
    (s : ServiceState π)
    (hclean : env.cleanup_ok = true)
    (hmode : env.mode = "HELIOS" ∨ env.mode = "TENDERMINT") :
    (base_failed env ∨ step_failed env.recursive_result ∨
        step_failed env.wrapper_result →
      run_round env s = (.retry 60, []) ∧ round_next_state env s = s) ∧
    (∀ s2 saves, run_round env s = (.advance s2, saves) →
      ¬ base_failed env ∧ (∃ p, env.recursive_result = .ok p) ∧
      (∃ p, env.wrapper_result = .ok p) ∧ saves = [s2] ∧
      s2.update_counter = s.update_counter + 1) := by
  have hTle : ("TENDERMINT" : String) ≠ "HELIOS" := by decide
  constructor
  · intro hfail
    have hretry : run_round env s = (.retry 60, []) := by
      rcases hmode with hm | hm
      · rcases hfail with hb | hr | hw
        · rcases hb with ⟨_, hnone⟩ | ⟨hm2, _⟩
          · unfold run_round base_outcome
            rw [hclean, hm, hnone]
            simp [DEFAULT_TIMEOUT]
          · rw [hm] at hm2; exact absurd hm2 (by decide)
        · unfold run_round base_outcome
          rw [hclean, hm]
          cases henv : env.helios_result <;>
            rcases hr with h | h <;> rw [h] <;> simp [DEFAULT_TIMEOUT]
        · unfold run_round base_outcome
          rw [hclean, hm]
          cases henv : env.helios_result <;>
            cases hrec : env.recursive_result <;>
            rcases hw with h | h <;> rw [h] <;> simp [DEFAULT_TIMEOUT]
      · rcases hfail with hb | hr | hw
        · rcases hb with ⟨hm2, _⟩ | ⟨_, hnone⟩
          · rw [hm] at hm2; exact absurd hm2 (by decide)
          · unfold run_round base_outcome
            rw [hclean, hm, hnone]
            simp [hTle, DEFAULT_TIMEOUT]
        · unfold run_round base_outcome
          rw [hclean, hm]
          cases henv : env.tendermint_result <;>
            rcases hr with h | h <;> rw [h] <;> simp [hTle, DEFAULT_TIMEOUT]
        · unfold run_round base_outcome
          rw [hclean, hm]
          cases henv : env.tendermint_result <;>
            cases hrec : env.recursive_result <;>
            rcases hw with h | h <;> rw [h] <;> simp [hTle, DEFAULT_TIMEOUT]
    exact ⟨hretry, by unfold round_next_state; rw [hretry]⟩
  · intro s2 saves hadv
    unfold run_round base_outcome at hadv
    rw [hclean] at hadv
    rcases hmode with hm | hm <;> rw [hm] at hadv
    · cases henv : env.helios_result
      · rw [henv] at hadv; simp at hadv
      rename_i ho
      rw [henv] at hadv
      cases hrec : env.recursive_result <;> rw [hrec] at hadv
      case failed => simp at hadv
      case panicked => simp at hadv
      rename_i rp
      cases hwr : env.wrapper_result <;> rw [hwr] at hadv
      case failed => simp at hadv
      case panicked => simp at hadv
      rename_i wp
      dsimp only at hadv
      rw [if_pos (rfl : (true : Bool) = true)] at hadv
      rw [if_pos (rfl : "HELIOS" = "HELIOS")] at hadv
      dsimp only at hadv
      cases hdec : env.decode_helios_rec_outputs (env.pv rp) <;> rw [hdec] at hadv
      · exact absurd hadv (by simp)
      rename_i wo
      dsimp only at hadv
      cases hsave : env.save_ok <;> rw [hsave] at hadv
      · exact absurd hadv (by simp)
      rw [if_pos (rfl : (true : Bool) = true)] at hadv
      rw [Prod.mk.injEq] at hadv
      obtain ⟨h1, h2⟩ := hadv
      injection h1 with h1
      subst h1
      refine ⟨?_, ⟨rp, rfl⟩, ⟨wp, rfl⟩, h2.symm, rfl⟩
      rintro (⟨_, hc⟩ | ⟨hm2, _⟩)
      · rw [henv] at hc; exact absurd hc (by simp)
      · rw [hm] at hm2; exact absurd hm2 (by decide)
    · cases henv : env.tendermint_result
      · rw [henv] at hadv; simp at hadv
      rename_i t
      rw [henv] at hadv
      cases hrec : env.recursive_result <;> rw [hrec] at hadv
      case failed => simp at hadv
      case panicked => simp at hadv
      rename_i rp
      cases hwr : env.wrapper_result <;> rw [hwr] at hadv
      case failed => simp at hadv
      case panicked => simp at hadv
      rename_i wp
      dsimp only at hadv
      rw [if_pos (rfl : (true : Bool) = true)] at hadv
      rw [if_neg (by decide : ¬ ("TENDERMINT" : String) = "HELIOS")] at hadv
      rw [if_pos (rfl : "TENDERMINT" = "TENDERMINT")] at hadv
      dsimp only at hadv
      cases hdec : env.decode_tm_rec_outputs (env.pv rp) <;> rw [hdec] at hadv
      · exact absurd hadv (by simp)
      rename_i wo
      dsimp only at hadv
      cases hsave : env.save_ok <;> rw [hsave] at hadv
      · exact absurd hadv (by simp)
      rw [if_pos (rfl : (true : Bool) = true)] at hadv
      rw [Prod.mk.injEq] at hadv
      obtain ⟨h1, h2⟩ := hadv
      injection h1 with h1
      subst h1
      refine ⟨?_, ⟨rp, rfl⟩, ⟨wp, rfl⟩, h2.symm, rfl⟩
      rintro (⟨hm2, _⟩ | ⟨_, hc⟩)
      · rw [hm] at hm2; exact absurd hm2 (by decide)
      · rw [henv] at hc; exact absurd hc (by simp)

/-- Witness for claim C6: a concrete round whose base stage fails retries after
60 seconds without saving. -/
theorem prover_round_retry_semantics_witness :
    run_round c6Env c6State = (.retry 60, []) ∧
    round_next_state c6Env c6State = c6State :=
  (prover_round_retry_semantics c6Env c6State rfl (Or.inl rfl)).1
    (Or.inl (Or.inl ⟨rfl, rfl⟩))

/-- Claim C7 evaluated at the failing input: with `CLIENT_BACKEND` unset, the
prover loop's `MODE` defaults to "HELIOS" while the startup mode (ELF
selection and state initialization) defaults to "TENDERMINT", so the two
mode branches disagree, contradicting the claim that every branch defaults
to "TENDERMINT". -/
theorem client_backend_default_divergence :
    prover_loop_mode none = "HELIOS" ∧
    startup_mode none = "TENDERMINT" ∧
    elf_selection (startup_mode none) = some "tendermint" ∧
    prover_loop_mode none ≠ startup_mode none :=
  ⟨rfl, rfl, rfl, by decide⟩

/-- Claim C8: when the checkpoint, client and latest-slot fetches succeed, the
Helios preprocessor returns the retryable waiting-for-finality error exactly
when `latest_slot <= trusted_slot` or `latest_slot / 32 < trusted_slot /
32`, and in that case the base prover is not invoked. -/
theorem preprocessor_waiting_for_finality {π : Type} (env : PreEnv)
    (pr : Option π) (trusted_slot latest_slot : Nat) (cp : HeliosCircuit.Bytes)
    (h1 : env.checkpoint_result = some cp)
    (h2 : env.client_result = some ())
    (h3 : env.latest_slot_result = some latest_slot) :
    (preprocessor_run env trusted_slot = .error .waitingForFinality ↔
      (latest_slot ≤ trusted_slot ∨ latest_slot / 32 < trusted_slot / 32)) ∧
    ((latest_slot ≤ trusted_slot ∨ latest_slot / 32 < trusted_slot / 32) →
      helios_prover_model env pr trusted_slot =
        (.error (.pre .waitingForFinality), false)) := by
  by_cases hc : latest_slot ≤ trusted_slot ∨ latest_slot / 32 < trusted_slot / 32
  · have hrun : preprocessor_run env trusted_slot = .error .waitingForFinality := by
      unfold preprocessor_run
      rw [h1, h2, h3]
      dsimp only
      rw [if_pos hc]
    exact ⟨⟨fun _ => hc, fun _ => hrun⟩,
      fun _ => by unfold helios_prover_model; rw [hrun]⟩
  · have hrun : preprocessor_run env trusted_slot ≠ .error .waitingForFinality := by
      unfold preprocessor_run
      rw [h1, h2, h3]
      dsimp only
      rw [if_neg hc]
      split
      · simp
      · split <;> simp
    exact ⟨⟨fun h => absurd h hrun, fun h => absurd h hc⟩, fun h => absurd h hc⟩

/-- Witness for claim C8: a concrete stale-slot environment produces the
waiting-for-finality error without invoking the prover. -/
theorem preprocessor_waiting_for_finality_witness :
    preprocessor_run c8Env 10 = .error .waitingForFinality ∧
    helios_prover_model c8Env (some 0) 10 =
      (.error (.pre .waitingForFinality), false) :=
  ⟨(preprocessor_waiting_for_finality c8Env (some 0) 10 10 [] rfl rfl rfl).1.mpr
      (Or.inl (by decide)),
    (preprocessor_waiting_for_finality c8Env (some 0) 10 10 [] rfl rfl rfl).2
      (Or.inl (by decide))⟩

/-- Claim C9: for every service state, saving it with the state manager and
loading it back returns `some` of a structurally equal state, given that the
proof codec is a right inverse pair (the contract of the serde_json encoding
of proofs). -/
theorem state_save_load_roundtrip {π : Type} (c : ProofCodec π)
    (hrt : ∀ p, c.from_slice (c.to_vec p) = some p)
    (s : ServiceState π) (db : Option DbRow) :
    load_state c (save_state c s db) = .ok (some s) := by
  obtain ⟨rp, wp, a, b, r, u⟩ := s
  unfold save_state load_state
  cases rp <;> cases wp <;> simp [decode_opt_blob, hrt]

/-- Witness for claim C9: a concrete codec and state round-trip exactly. -/
theorem state_save_load_roundtrip_witness :
    (∀ p : Nat, c9Codec.from_slice (c9Codec.to_vec p) = some p) ∧
    load_state c9Codec (save_state c9Codec c9State none) = .ok (some c9State) :=
  ⟨fun _ => rfl, state_save_load_roundtrip c9Codec (fun _ => rfl) c9State none⟩

/-- Helper: every committed output record of `get_helios_outputs` carries the
`recursive_vk` of the circuit inputs verbatim. -/
lemma get_helios_outputs_vk (ho : HeliosOutputs)
    (rec : Option RecursionCircuitOutputs) (inputs : RecursionCircuitInputs)
    (sr h : Bytes) (out : RecursionCircuitOutputs)
    (hs : get_helios_outputs ho rec inputs sr h = some out) :
    out.vk = inputs.recursive_vk := by
  unfold get_helios_outputs at hs
  dsimp only at hs
  split at hs
  · injection hs with hv; rw [← hv]
  · split at hs
    case isFalse => simp at hs
    split at hs <;> split at hs <;>
      first
      | (injection hs with hv; rw [← hv])
      | simp at hs

/-- Claim C10: both recursion circuits commit `vk` equal to the `recursive_vk`
input verbatim whenever they succeed, and in the bootstrap branch the value
of `recursive_vk` influences nothing but the committed `vk` field — no
verification inside the circuit constrains it. -/
theorem recursion_outputs_vk_verbatim :
    (∀ (c : HeliosConsts) (env : HeliosEnv) (inputs : RecursionCircuitInputs) out,
      helios_main c env inputs = some out → out.vk = inputs.recursive_vk) ∧
    (∀ (env : TendermintCircuit.TmEnv)
        (inputs : TendermintCircuit.RecursionCircuitInputs) out,
      TendermintCircuit.tendermint_main env inputs = some out →
      out.vk = inputs.recursive_vk) ∧
    (∀ (c : HeliosConsts) (env : HeliosEnv) (inputs : RecursionCircuitInputs) v,
      inputs.previous_head = c.TRUSTED_HEAD →
      helios_main c env { inputs with recursive_vk := v } =
        (helios_main c env inputs).map (fun o => { o with vk := v })) ∧
    (∀ (env : TendermintCircuit.TmEnv)
        (inputs : TendermintCircuit.RecursionCircuitInputs) v,
      inputs.trusted_height = TendermintCircuit.TRUSTED_HEIGHT →
      TendermintCircuit.tendermint_main env { inputs with recursive_vk := v } =
        (TendermintCircuit.tendermint_main env inputs).map
          (fun o => { o with vk := v })) := by
  refine ⟨?_, ?_, ?_, ?_⟩
  · intro c env inputs out hsucc
    unfold helios_main at hsucc
    split at hsucc
    · simp at hsucc
    rename_i ho hdec
    dsimp only at hsucc
    split at hsucc
    case isFalse => simp at hsucc
    split at hsucc
    case isFalse => simp at hsucc
    split at hsucc
    case isFalse => simp at hsucc
    split at hsucc
    · split at hsucc
      case isFalse => simp at hsucc
      exact get_helios_outputs_vk _ _ _ _ _ _ hsucc
    · split at hsucc
      case h_2 => simp at hsucc
      rename_i rp rpv hrp hrpv
      split at hsucc
      case isFalse => simp at hsucc
      split at hsucc
      case h_1 => simp at hsucc
      rename_i ro hro
      exact get_helios_outputs_vk _ _ _ _ _ _ hsucc
  · intro env inputs out hsucc
    unfold TendermintCircuit.tendermint_main at hsucc
    split at hsucc
    · simp at hsucc
    rename_i t hdec
    dsimp only at hsucc
    split at hsucc
    case isFalse => simp at hsucc
    split at hsucc
    · split at hsucc
      case isFalse => simp at hsucc
      injection hsucc with h
      rw [← h]
    · split at hsucc
      case h_1 => simp at hsucc
      rename_i rpv hrpv
      split at hsucc
      case h_1 => simp at hsucc
      rename_i ro hro
      split at hsucc
      case isFalse => simp at hsucc
      split at hsucc
      case h_1 => simp at hsucc
      rename_i rp hrp
      split at hsucc
      case isFalse => simp at hsucc
      injection hsucc with h
      rw [← h]
  · intro c env inputs v hboot
    unfold helios_main get_helios_outputs
    dsimp only
    rw [hboot]
    cases env.abi_decode_helios inputs.helios_public_values
    · simp
    rename_i ho
    by_cases h1 : inputs.electra_header.body_root =
        env.merkelize_body inputs.electra_body_roots <;>
      by_cases h2 : env.merkleize_header inputs.electra_header = ho.newHeader <;>
      by_cases h3 : env.groth16_verify inputs.helios_proof
        inputs.helios_public_values c.HELIOS_VK = true <;>
      by_cases h4 : ho.prevSyncCommitteeHash = c.TRUSTED_SYNC_COMMITTEE_HASH <;>
      simp [h1, h2, h3, h4]
  · intro env inputs v hboot
    unfold TendermintCircuit.tendermint_main
    dsimp only
    rw [hboot]
    cases env.json_decode_output inputs.tendermint_public_values
    · simp
    rename_i t
    by_cases h1 : env.groth16_verify inputs.tendermint_proof
        inputs.tendermint_public_values TendermintCircuit.TENDERMINT_VK = true <;>
      by_cases h2 : t.trusted_header_hash = TendermintCircuit.TRUSTED_ROOT <;>
      simp [h1, h2]

/-- Witness for claim C10: concrete bootstrap evaluations of both circuits. -/
theorem recursion_outputs_vk_verbatim_witness :
    (({ active_committee := [2], previous_committee := [6], root := [4],
        height := 1, vk := "rvk" } : RecursionCircuitOutputs).vk =
      c3Inputs.recursive_vk) ∧
    (({ root := [1], height := 31134500,
        vk := "rvk" } : TendermintCircuit.RecursionCircuitOutputs).vk =
      c3TmInputs.recursive_vk) ∧
    (helios_main c3Consts c3Env { c3Inputs with recursive_vk := "other" } =
      (helios_main c3Consts c3Env c3Inputs).map (fun o => { o with vk := "other" })) ∧
    (TendermintCircuit.tendermint_main c3TmEnv
        { c3TmInputs with recursive_vk := "other" } =
      (TendermintCircuit.tendermint_main c3TmEnv c3TmInputs).map
        (fun o => { o with vk := "other" })) :=
  ⟨recursion_outputs_vk_verbatim.1 c3Consts c3Env c3Inputs _ (by rfl),
    recursion_outputs_vk_verbatim.2.1 c3TmEnv c3TmInputs _ (by rfl),
    recursion_outputs_vk_verbatim.2.2.1 c3Consts c3Env c3Inputs "other" rfl,
    recursion_outputs_vk_verbatim.2.2.2 c3TmEnv c3TmInputs "other" rfl⟩
